import Mathlib

/-!
Verification of the quadrature-generation subsystem of
`src/src/components/bluepad32/uni_mouse_quadrature.c` (bluepad32).

The C code is shallowly embedded: the per-axis mutable `struct
quadrature_state` becomes a Lean structure, the stepper body
`process_quadrature` and the rate converter `process_update` become pure
functions returning the new state together with the peripheral writes they
perform (GPIO level writes, timer counter reloads), and the port-level API
(`uni_mouse_quadrature_setup_port` / `_start` / `_pause` / `_update`)
becomes state-passing functions over a system state holding the
`s_quadratures` array, the `timer_started` cache and the `s_scale_factor`
global.  C `int`/`int32_t` values are modelled as `ℤ`, with two's-complement
wrapping (`Int.bmod · (2 ^ 32)`) made explicit exactly where the C source
performs arithmetic that can overflow (the negations `-delta` and `-dy`).
The `float` computations of the rate converter are modelled over `ℚ` with
exact arithmetic; `roundf` (round half away from zero, applied here only to
nonnegative values) is modelled by Mathlib's `round` (round half up, which
agrees with it on nonnegative values).  The external NVS key-value store is
modelled at its interface boundary as an abstract record of call outcomes
plus the stored value.
-/

/-- `#define TICKS_PER_80US (1)` (line 51), as the `ℚ` it is promoted to in
the float computations of `process_update`. -/
def TICKS_PER_80US : ℚ := 1

/-- `#define ONE_SECOND (12500)` (line 52): timer ticks per second. -/
def ONE_SECOND : ℤ := 12500

/-- `#define DETAULT_SCALE_FACTOR (1)` (line 58). -/
def DETAULT_SCALE_FACTOR : ℚ := 1

/-- Modelled from the spec: `UNI_MOUSE_QUADRATURE_PORT_MAX` comes from the
header `uni_mouse_quadrature.h`, which is not among the provided sources.
The spec fixes "up to two axes per port across multiple ports" and the code
comment at line 147 says the stepper callback is called from 4 different
tasks (= ports × encoders), giving 2 ports. -/
def UNI_MOUSE_QUADRATURE_PORT_MAX : ℤ := 2

/-- Modelled from the spec: `UNI_MOUSE_QUADRATURE_ENCODER_MAX` from the
missing header; each port has exactly the horizontal and vertical encoders. -/
def UNI_MOUSE_QUADRATURE_ENCODER_MAX : ℤ := 2

/-- Modelled from the spec: `UNI_MOUSE_QUADRATURE_ENCODER_H` from the missing
header; the horizontal encoder has index 0 (line 196 names task `j == 0` with
suffix `H`). -/
def UNI_MOUSE_QUADRATURE_ENCODER_H : ℤ := 0

/-- Modelled from the spec: `UNI_MOUSE_QUADRATURE_ENCODER_V` from the missing
header; the vertical encoder has index 1. -/
def UNI_MOUSE_QUADRATURE_ENCODER_V : ℤ := 1

/-- Two's-complement wrap of an integer into the `int32_t` range
`[-2^31, 2^31)`, used where the C source performs a signed negation that can
overflow. -/
def wrap32 (n : ℤ) : ℤ := Int.bmod n (2 ^ 32)

/-- `enum direction` (lines 60-63). -/
inductive direction where
  | PHASE_DIRECTION_NEG : direction
  | PHASE_DIRECTION_POS : direction
deriving DecidableEq, Repr

/-- `struct uni_mouse_quadrature_encoder_gpios`: the two GPIO identifiers of
an encoder (fields `a` and `b`, used at lines 139-140). -/
structure encoder_gpios where
  a : ℤ
  b : ℤ
deriving DecidableEq, Repr

/-- `struct quadrature_state` (lines 66-82). -/
structure quadrature_state where
  encoder : ℤ
  dir : direction
  value : ℤ
  phase : ℤ
  timer_group : ℤ
  timer_idx : ℤ
  gpios : encoder_gpios
deriving DecidableEq, Repr

/-- The phase advance of `process_quadrature` (lines 106-114): decrement with
wrap to 3 in the negative direction, increment with wrap to 0 in the positive
direction. -/
def advance_phase (dir : direction) (phase : ℤ) : ℤ :=
  match dir with
  | .PHASE_DIRECTION_NEG => if phase - 1 < 0 then 3 else phase - 1
  | .PHASE_DIRECTION_POS => if phase + 1 > 3 then 0 else phase + 1

/-- The `switch (q->phase)` table of `process_quadrature` (lines 116-137),
mapping a phase to the `(a, b)` output levels; the `default` arm returns
`(0, 0)`. -/
def phase_table (phase : ℤ) : ℤ × ℤ :=
  if phase = 0 then (0, 0)
  else if phase = 1 then (1, 0)
  else if phase = 2 then (1, 1)
  else if phase = 3 then (0, 1)
  else (0, 0)

/-- `process_quadrature` (lines 98-144): one stepper firing.  Returns the new
axis state and the list of `gpio_set_level` writes `(gpio, level)` performed,
in order.  When `value <= 0` the function returns without touching anything. -/
def process_quadrature (q : quadrature_state) : quadrature_state × List (ℤ × ℤ) :=
  if q.value ≤ 0 then (q, [])
  else
    let phase := advance_phase q.dir q.phase
    let ab := phase_table phase
    ({ q with value := q.value - 1, phase := phase },
     [(q.gpios.a, ab.1), (q.gpios.b, ab.2)])

/-- `float max_ticks = 128 * TICKS_PER_80US;` (line 244). -/
def max_ticks : ℚ := 128 * TICKS_PER_80US

/-- `units_f = (max_ticks / delta_f) * s_scale_factor;` (lines 245-246): the
unclamped per-step interval, over exact rationals. -/
def units_f_raw (abs_delta : ℤ) (s : ℚ) : ℚ :=
  max_ticks / (abs_delta : ℚ) * s

/-- The clamp `if (units_f < TICKS_PER_80US) units_f = TICKS_PER_80US;`
(lines 247-248). -/
def units_f_clamped (abs_delta : ℤ) (s : ℚ) : ℚ :=
  if units_f_raw abs_delta s < TICKS_PER_80US then TICKS_PER_80US
  else units_f_raw abs_delta s

/-- `units = roundf(units_f);` (line 249). -/
def rate_units (abs_delta : ℤ) (s : ℚ) : ℤ :=
  round (units_f_clamped abs_delta s)

/-- `int32_t abs_delta = (delta < 0) ? -delta : delta;` (line 208).  The
negation is performed on an `int32_t` and wraps (at `delta = -2^31` the
result is `-2^31` again). -/
def abs_delta32 (delta : ℤ) : ℤ :=
  if delta < 0 then wrap32 (-delta) else delta

/-- `process_update` (lines 206-255), with the global `s_scale_factor` passed
explicitly.  Returns the new axis state together with the
`timer_set_counter_value(q->timer_group, q->timer_idx, units)` write as a
triple `(timer_group, timer_idx, units)`.  For `delta != 0` the state gets
`value = abs_delta`, `dir` from the sign of `delta`, and the phase is left
untouched; for `delta == 0` the state is untouched and the timer is reloaded
with the idle interval `ONE_SECOND * 60`. -/
def process_update (q : quadrature_state) (delta : ℤ) (s : ℚ) :
    quadrature_state × ℤ × ℤ × ℤ :=
  let abs_delta := abs_delta32 delta
  if delta ≠ 0 then
    ({ q with
        value := abs_delta,
        dir := if delta < 0 then .PHASE_DIRECTION_NEG else .PHASE_DIRECTION_POS },
     (q.timer_group, q.timer_idx, rate_units abs_delta s))
  else
    (q, (q.timer_group, q.timer_idx, ONE_SECOND * 60))

/-- The state of `s_quadratures[p][e]` right after `uni_mouse_quadrature_init`
(lines 257-266): `memset(s_quadratures, 0, ...)` zeroes every field (the
zero of `enum direction` is `PHASE_DIRECTION_NEG`), then
`timer_group = TIMER_GROUP_0 + p` and `timer_idx = TIMER_0 + e`
(`TIMER_GROUP_0 = TIMER_0 = 0` in ESP-IDF). -/
def s_quadratures_init (p e : ℤ) : quadrature_state :=
  { encoder := 0, dir := .PHASE_DIRECTION_NEG, value := 0, phase := 0,
    timer_group := p, timer_idx := e, gpios := ⟨0, 0⟩ }

/-- Values already in the `int32_t` range are fixed by the wrap. -/
theorem wrap32_eq_self {n : ℤ} (h1 : -2 ^ 31 ≤ n) (h2 : n < 2 ^ 31) :
    wrap32 n = n := by
  simp only [wrap32, Int.bmod]
  norm_num
  split <;> omega

/-- For deltas strictly above `-2^31`, the C absolute value is the
mathematical one. -/
theorem abs_delta32_eq_abs {d : ℤ} (h : -2 ^ 31 < d) : abs_delta32 d = |d| := by
  unfold abs_delta32
  split
  · rename_i hneg
    rw [wrap32_eq_self (by omega) (by omega), abs_of_neg hneg]
  · rename_i hpos
    rw [abs_of_nonneg (by omega)]

/-- `round` is monotone on `ℚ`. -/
theorem round_le_round_of_le {x y : ℚ} (h : x ≤ y) : round x ≤ round y := by
  rw [round_eq, round_eq]
  exact Int.floor_le_floor (by linarith)

/-- C1: for every stepper firing that advances the phase (i.e. fires with a
positive remaining count and phase in `[0,3]`), the new phase is the old one
moved by `+1 mod 4` in the positive direction and `-1 mod 4` in the negative
direction, the two GPIO writes are exactly the quadrature table applied to
the new phase, the table is `0↦(0,0)`, `1↦(1,0)`, `2↦(1,1)`, `3↦(0,1)`, and
four advances in one direction return to the starting phase. -/
theorem process_quadrature_phase_and_table (q : quadrature_state)
    (hp0 : 0 ≤ q.phase) (hp3 : q.phase ≤ 3) :
    (0 < q.value →
      (process_quadrature q).1.phase =
        (q.phase + (if q.dir = .PHASE_DIRECTION_POS then 1 else -1)) % 4 ∧
      (process_quadrature q).2 =
        [(q.gpios.a, (phase_table (process_quadrature q).1.phase).1),
         (q.gpios.b, (phase_table (process_quadrature q).1.phase).2)]) ∧
    (phase_table 0 = (0, 0) ∧ phase_table 1 = (1, 0) ∧
     phase_table 2 = (1, 1) ∧ phase_table 3 = (0, 1)) ∧
    (∀ d : direction,
      advance_phase d (advance_phase d (advance_phase d (advance_phase d q.phase)))
        = q.phase) := by
  obtain ⟨enc, dir, value, phase, tg, ti, gp⟩ := q
  simp only [process_quadrature] at *
  refine ⟨?_, by constructor <;> decide, ?_⟩
  · intro hv
    rw [if_neg (by omega)]
    cases dir <;> interval_cases phase <;>
      simp [advance_phase, phase_table]
  · intro d
    cases d <;> interval_cases phase <;> decide

/-- Witness for C1 at phase 2, positive direction, value 1. -/
theorem process_quadrature_phase_and_table_witness :
    (0 ≤ (2 : ℤ) ∧ (2 : ℤ) ≤ 3) ∧
    ((process_quadrature
        { encoder := 0, dir := .PHASE_DIRECTION_POS, value := 1, phase := 2,
          timer_group := 0, timer_idx := 0, gpios := ⟨4, 5⟩ }).1.phase = 3 ∧
     (process_quadrature
        { encoder := 0, dir := .PHASE_DIRECTION_POS, value := 1, phase := 2,
          timer_group := 0, timer_idx := 0, gpios := ⟨4, 5⟩ }).2 = [(4, 0), (5, 1)]) := by
  have h := process_quadrature_phase_and_table
    { encoder := 0, dir := .PHASE_DIRECTION_POS, value := 1, phase := 2,
      timer_group := 0, timer_idx := 0, gpios := ⟨4, 5⟩ }
    (by decide) (by decide)
  obtain ⟨h1, _, _⟩ := h
  have h2 := h1 (by decide)
  refine ⟨by decide, ?_, ?_⟩
  · rw [h2.1]; decide
  · rw [h2.2, h2.1]; decide

/-- C2 (amended): for every non-zero delta `d` strictly above `-2^31` (the
one `int32_t` value whose negation overflows), immediately after
`process_update` the axis's `value` equals `|d|` and its direction is
negative iff `d < 0`; every stepper firing with a positive count decrements
the count by exactly 1; and a firing with the count at 0 leaves the state and
performs no pin writes. -/
theorem process_update_steps (q : quadrature_state) (d : ℤ) (s : ℚ)
    (hlo : -2 ^ 31 < d) (hd : d ≠ 0) :
    ((process_update q d s).1.value = |d| ∧
     ((process_update q d s).1.dir = .PHASE_DIRECTION_NEG ↔ d < 0)) ∧
    (∀ q' : quadrature_state, 0 < q'.value →
      (process_quadrature q').1.value = q'.value - 1) ∧
    (∀ q' : quadrature_state, q'.value = 0 → process_quadrature q' = (q', [])) := by
  refine ⟨?_, ?_, ?_⟩
  · rw [process_update, if_pos hd]
    refine ⟨abs_delta32_eq_abs hlo, ?_⟩
    split
    · simp_all
    · simp_all
  · intro q' hv
    rw [process_quadrature, if_neg (by omega)]
  · intro q' hv
    rw [process_quadrature, if_pos (by omega)]

/-- Witness for C2 at `d = -3`, on an axis with 3 then 0 remaining steps. -/
theorem process_update_steps_witness :
    ((-2 ^ 31 : ℤ) < -3 ∧ (-3 : ℤ) ≠ 0) ∧
    (process_update (s_quadratures_init 0 0) (-3) 1).1.value = 3 ∧
    ((process_update (s_quadratures_init 0 0) (-3) 1).1.dir
       = .PHASE_DIRECTION_NEG) ∧
    (process_quadrature
      { s_quadratures_init 0 0 with value := 3 }).1.value = 2 ∧
    process_quadrature { s_quadratures_init 0 0 with value := 0 }
      = ({ s_quadratures_init 0 0 with value := 0 }, []) := by
  have h := process_update_steps (s_quadratures_init 0 0) (-3) 1
    (by norm_num) (by norm_num)
  refine ⟨by norm_num, ?_, ?_, ?_, ?_⟩
  · rw [h.1.1]; norm_num
  · exact h.1.2.mpr (by norm_num)
  · rw [h.2.1 _ (by decide)]; decide
  · exact h.2.2 _ rfl

/-- Counterexample for C2 as stated: at `delta = -2^31` the `int32_t`
negation wraps, so the remaining count is set to `-2^31`, not `|delta|`. -/
theorem process_update_steps_counterexample :
    (process_update (s_quadratures_init 0 0) (-2 ^ 31) 1).1.value
      ≠ |(-2 ^ 31 : ℤ)| := by decide

/-- C3 (amended): for every delta `d ≠ 0` strictly above `-2^31` and scale
`s > 0`, the programmed timer interval equals `round(max_ticks / |d| * s)`
clamped to a minimum of one tick, and is never below that minimum. -/
theorem process_update_interval (q : quadrature_state) (d : ℤ) (s : ℚ)
    (hlo : -2 ^ 31 < d) (hd : d ≠ 0) (hs : 0 < s) :
    (process_update q d s).2.2.2 = max 1 (round (max_ticks / ((|d| : ℤ) : ℚ) * s)) ∧
    1 ≤ (process_update q d s).2.2.2 := by
  rw [process_update, if_pos hd, abs_delta32_eq_abs hlo]
  have key : rate_units |d| s = max 1 (round (max_ticks / ((|d| : ℤ) : ℚ) * s)) := by
    rw [rate_units, units_f_clamped, units_f_raw, TICKS_PER_80US]
    split
    · rename_i hlt
      rw [round_one]
      have h1 : round (max_ticks / ((|d| : ℤ) : ℚ) * s) ≤ 1 := by
        have := round_le_round_of_le hlt.le
        rwa [round_one] at this
      omega
    · rename_i hge
      have h1 : 1 ≤ round (max_ticks / ((|d| : ℤ) : ℚ) * s) := by
        have := round_le_round_of_le (not_lt.mp hge)
        rwa [round_one] at this
      omega
  refine ⟨key, ?_⟩
  rw [key]
  exact le_max_left _ _

/-- Witness for C3: `d = 64`, `s = 1` (the spec's concrete scenario for the
horizontal axis of `update(port=0, dx=64, dy=0)`) programs an interval of
exactly 2 ticks. -/
theorem process_update_interval_witness :
    ((-2 ^ 31 : ℤ) < 64 ∧ (64 : ℤ) ≠ 0 ∧ (0 : ℚ) < 1) ∧
    (process_update (s_quadratures_init 0 0) 64 1).2.2.2 = 2 := by
  have h := process_update_interval (s_quadratures_init 0 0) 64 1
    (by norm_num) (by norm_num) (by norm_num)
  refine ⟨by norm_num, ?_⟩
  rw [h.1]
  norm_num [max_ticks, TICKS_PER_80US, round_eq]

/-- Counterexample for C3 as stated: at `delta = -2^31` (with scale
`s = 2^25 > 0`) the wrapped absolute value is negative, the unclamped
interval is `-2`, and the clamp forces the programmed interval to 1, while
`round(max_ticks / |delta| * s)` clamped to one tick is 2. -/
theorem process_update_interval_counterexample :
    (process_update (s_quadratures_init 0 0) (-2 ^ 31) (2 ^ 25)).2.2.2
      ≠ max 1 (round (max_ticks / ((|(-2 ^ 31 : ℤ)| : ℤ) : ℚ) * 2 ^ 25)) := by
  have habs : abs_delta32 (-2147483648 : ℤ) = -2147483648 := by decide
  have h1 : (process_update (s_quadratures_init 0 0) (-2 ^ 31) (2 ^ 25)).2.2.2 = 1 := by
    rw [process_update, if_pos (show (-2 ^ 31 : ℤ) ≠ 0 by norm_num)]
    norm_num [habs, rate_units, units_f_clamped, units_f_raw, max_ticks,
      TICKS_PER_80US]
  have h2 : max 1 (round (max_ticks / ((|(-2 ^ 31 : ℤ)| : ℤ) : ℚ) * 2 ^ 25)) = 2 := by
    norm_num [max_ticks, TICKS_PER_80US, round_eq]
  rw [h1, h2]
  norm_num

/-- C4 (amended): for every `d ≠ 0` and scale `s`, doubling the scale exactly
doubles the unclamped, unrounded interval; and whenever the minimum-interval
clamp does not apply at scale `s` (so that it cannot apply at `2s` either),
the rounded programmed interval at scale `2s` differs from double the one at
scale `s` by at most one tick.  Exact doubling of the programmed interval
fails in general because of the final rounding. -/
theorem process_update_scale_doubling (q : quadrature_state) (d : ℤ) (s : ℚ)
    (hd : d ≠ 0) (hclamp : TICKS_PER_80US ≤ units_f_raw (abs_delta32 d) s) :
    units_f_raw (abs_delta32 d) (2 * s) = 2 * units_f_raw (abs_delta32 d) s ∧
    |(process_update q d (2 * s)).2.2.2 - 2 * (process_update q d s).2.2.2| ≤ 1 := by
  have hdouble : units_f_raw (abs_delta32 d) (2 * s)
      = 2 * units_f_raw (abs_delta32 d) s := by
    rw [units_f_raw, units_f_raw]
    ring
  refine ⟨hdouble, ?_⟩
  have hclamp1 : ¬ units_f_raw (abs_delta32 d) s < TICKS_PER_80US :=
    not_lt.mpr hclamp
  have hclamp2 : ¬ units_f_raw (abs_delta32 d) (2 * s) < TICKS_PER_80US := by
    rw [hdouble]
    simp only [TICKS_PER_80US] at hclamp ⊢
    nlinarith
  have hu1 : (process_update q d s).2.2.2
      = round (units_f_raw (abs_delta32 d) s) := by
    rw [process_update, if_pos hd, rate_units, units_f_clamped, if_neg hclamp1]
  have hu2 : (process_update q d (2 * s)).2.2.2
      = round (2 * units_f_raw (abs_delta32 d) s) := by
    rw [process_update, if_pos hd, rate_units, units_f_clamped, if_neg hclamp2,
      hdouble]
  rw [hu1, hu2]
  generalize units_f_raw (abs_delta32 d) s = uf
  have ha := abs_sub_round uf
  have hb := abs_sub_round (2 * uf)
  have key : |((round (2 * uf) : ℚ)) - 2 * ((round uf : ℚ))| ≤ 3 / 2 := by
    have hsplit : ((round (2 * uf) : ℚ)) - 2 * ((round uf : ℚ))
        = -(2 * uf - round (2 * uf)) + 2 * (uf - round uf) := by ring
    rw [hsplit]
    have h1 := abs_add (-(2 * uf - (round (2 * uf) : ℚ))) (2 * (uf - round uf))
    rw [abs_neg, abs_mul, abs_two] at h1
    linarith
  have hcast : |((round (2 * uf) - 2 * round uf : ℤ) : ℚ)| ≤ 3 / 2 := by
    push_cast
    exact key
  have hlt : |round (2 * uf) - 2 * round uf| < 2 := by
    have h2 : (|round (2 * uf) - 2 * round uf| : ℚ) < 2 := by
      rw [← Int.cast_abs] at hcast
      linarith
    exact_mod_cast h2
  omega

/-- Witness for C4 at `d = 128`, `s = 1`: the clamp does not apply and the
intervals are 2 and 1. -/
theorem process_update_scale_doubling_witness :
    ((128 : ℤ) ≠ 0 ∧ TICKS_PER_80US ≤ units_f_raw (abs_delta32 128) 1) ∧
    units_f_raw (abs_delta32 128) (2 * 1) = 2 * units_f_raw (abs_delta32 128) 1 ∧
    |(process_update (s_quadratures_init 0 0) 128 (2 * 1)).2.2.2
      - 2 * (process_update (s_quadratures_init 0 0) 128 1).2.2.2| ≤ 1 := by
  have h := process_update_scale_doubling (s_quadratures_init 0 0) 128 1
    (by norm_num)
    (by norm_num [units_f_raw, abs_delta32, max_ticks, TICKS_PER_80US])
  exact ⟨⟨by norm_num,
    by norm_num [units_f_raw, abs_delta32, max_ticks, TICKS_PER_80US]⟩, h⟩

/-- Counterexample for C4 as stated: at `d = 128`, `s = 5/4` the clamp does
not apply at either scale (both unrounded intervals are at least one tick),
yet the interval at scale `2s` is `round(2.5) = 3`, not double the interval
`round(1.25) = 1` at scale `s`. -/
theorem process_update_scale_doubling_counterexample :
    (process_update (s_quadratures_init 0 0) 128 (2 * (5 / 4))).2.2.2
        ≠ 2 * (process_update (s_quadratures_init 0 0) 128 (5 / 4)).2.2.2 ∧
    TICKS_PER_80US ≤ units_f_raw (abs_delta32 128) (5 / 4) ∧
    TICKS_PER_80US ≤ units_f_raw (abs_delta32 128) (2 * (5 / 4)) := by
  refine ⟨?_, by norm_num [units_f_raw, abs_delta32, max_ticks, TICKS_PER_80US],
    by norm_num [units_f_raw, abs_delta32, max_ticks, TICKS_PER_80US]⟩
  have hL : (process_update (s_quadratures_init 0 0) 128 (2 * (5 / 4))).2.2.2 = 3 := by
    rw [process_update, if_pos (show (128 : ℤ) ≠ 0 by norm_num)]
    norm_num [abs_delta32, rate_units, units_f_clamped, units_f_raw, max_ticks,
      TICKS_PER_80US, round_eq]
  have hR : (process_update (s_quadratures_init 0 0) 128 (5 / 4)).2.2.2 = 1 := by
    rw [process_update, if_pos (show (128 : ℤ) ≠ 0 by norm_num)]
    norm_num [abs_delta32, rate_units, units_f_clamped, units_f_raw, max_ticks,
      TICKS_PER_80US, round_eq]
  rw [hL, hR]
  norm_num

/-- Modelled from the spec: the external NVS key-value store (spec section 6,
"Config store boundary"), which is outside this module.  It is modelled at
its interface boundary by the outcomes of `nvs_open(READWRITE)`,
`nvs_set_u32`, `nvs_commit` and `nvs_open(READONLY)`, plus the durably
stored scale value under the key `mouse.scale` (`none` when absent).  The
value is kept as the exact `ℚ` that the `float` bits encode; the u32
bit-reinterpretation used by the C code is a bijection on floats, so the
round-trip through the store is the identity on values. -/
structure nvs_store where
  open_rw_ok : Bool
  set_ok : Bool
  commit_ok : Bool
  open_ro_ok : Bool
  stored : Option ℚ
deriving DecidableEq, Repr

/-- `uni_mouse_quadrature_get_scale_factor` (lines 374-392): opens the store
read-only and reads the persisted value; if the open or the read fails it
returns `DETAULT_SCALE_FACTOR`.  It never consults the in-memory
`s_scale_factor`. -/
def uni_mouse_quadrature_get_scale_factor (nvs : nvs_store) : ℚ :=
  if nvs.open_ro_ok = false then DETAULT_SCALE_FACTOR
  else
    match nvs.stored with
    | none => DETAULT_SCALE_FACTOR
    | some v => v

/-- `uni_mouse_quadrature_set_scale_factor` (lines 341-372): assigns the
in-memory `s_scale_factor = scale` first (line 347), unconditionally, then
tries `nvs_open` / `nvs_set_u32` / `nvs_commit`, each failure merely logged
(the commit outcome only affects logging; the value has been handed to the
store by the successful `nvs_set_u32`).  Returns the new in-memory scale and
the new store. -/
def uni_mouse_quadrature_set_scale_factor (nvs : nvs_store) (scale : ℚ) :
    ℚ × nvs_store :=
  if nvs.open_rw_ok = false then (scale, nvs)
  else if nvs.set_ok = false then (scale, nvs)
  else (scale, { nvs with stored := some scale })

/-- C5 (amended): `set_scale(v)` updates the in-memory scale factor
immediately and unconditionally, even when opening or writing the persistent
store fails; but `get_scale()` reads only the persistent store, so
`set_scale(v)` followed by `get_scale()` returns `v` exactly when the
persistence steps succeeded (and the store stays readable), not when
persistence fails. -/
theorem set_scale_factor_semantics (nvs : nvs_store) (v : ℚ) :
    (uni_mouse_quadrature_set_scale_factor nvs v).1 = v ∧
    (nvs.open_rw_ok = true → nvs.set_ok = true → nvs.open_ro_ok = true →
      uni_mouse_quadrature_get_scale_factor
        (uni_mouse_quadrature_set_scale_factor nvs v).2 = v) := by
  constructor
  · rw [uni_mouse_quadrature_set_scale_factor]
    split
    · rfl
    · split <;> rfl
  · intro h1 h2 h3
    rw [uni_mouse_quadrature_set_scale_factor, if_neg (by simp [h1]),
      if_neg (by simp [h2]), uni_mouse_quadrature_get_scale_factor,
      if_neg (by simp [h3])]

/-- Witness for C5 with a fully working store and `v = 3`. -/
theorem set_scale_factor_semantics_witness :
    (uni_mouse_quadrature_set_scale_factor ⟨true, true, true, true, none⟩ 3).1 = 3 ∧
    uni_mouse_quadrature_get_scale_factor
      (uni_mouse_quadrature_set_scale_factor ⟨true, true, true, true, none⟩ 3).2 = 3 := by
  have h := set_scale_factor_semantics ⟨true, true, true, true, none⟩ 3
  exact ⟨h.1, h.2 rfl rfl rfl⟩

/-- Counterexample for C5 as stated: with a store whose read-write open fails
(persistence failure), `set_scale(2)` still updates the in-memory value to 2,
but a following `get_scale()` returns the default 1, not 2 — the round-trip
through `get_scale` does not hold when persistence fails, because
`get_scale` reads the store and not the in-memory value. -/
theorem set_scale_factor_counterexample :
    (uni_mouse_quadrature_set_scale_factor ⟨false, false, false, true, none⟩ 2).1 = 2 ∧
    uni_mouse_quadrature_get_scale_factor
        (uni_mouse_quadrature_set_scale_factor ⟨false, false, false, true, none⟩ 2).2
      ≠ 2 := by
  constructor
  · rfl
  · rw [uni_mouse_quadrature_set_scale_factor]
    norm_num [uni_mouse_quadrature_get_scale_factor, DETAULT_SCALE_FACTOR]

/-- C6: `process_update` never writes the axis's `phase` field, for every
delta; and for `delta == 0` it additionally leaves the whole axis state (in
particular `remaining_steps`) unchanged and reprograms the timer to the idle
interval `ONE_SECOND * 60` (60 seconds' worth of ticks). -/
theorem process_update_phase_frame (q : quadrature_state) (delta : ℤ) (s : ℚ) :
    (process_update q delta s).1.phase = q.phase ∧
    (delta = 0 →
      (process_update q delta s).1 = q ∧
      (process_update q delta s).2.2.2 = ONE_SECOND * 60) := by
  constructor
  · rw [process_update]
    split <;> rfl
  · intro h0
    subst h0
    rw [process_update, if_neg (by simp)]
    exact ⟨rfl, rfl⟩

/-- Witness for C6 at `delta = 0` on an axis mid-burst. -/
theorem process_update_phase_frame_witness :
    (process_update { s_quadratures_init 0 0 with value := 7, phase := 2 } 0 1).1
      = { s_quadratures_init 0 0 with value := 7, phase := 2 } ∧
    (process_update { s_quadratures_init 0 0 with value := 7, phase := 2 } 0 1).2.2.2
      = 750000 := by
  have h := process_update_phase_frame
    { s_quadratures_init 0 0 with value := 7, phase := 2 } 0 1
  obtain ⟨hfr, hidle⟩ := h.2 rfl
  exact ⟨hfr, by rw [hidle]; decide⟩

/-- A `timer_start`/`timer_pause` peripheral call on a `(group, idx)` pair
(lines 309 and 324). -/
inductive timer_op where
  | start : ℤ → ℤ → timer_op
  | pause : ℤ → ℤ → timer_op
deriving DecidableEq, Repr

/-- The module's global mutable state: the `s_quadratures` array (as a total
map over port and encoder indices; the C code only ever accesses in-range
indices), the `timer_started` cache (line 86), and the `s_scale_factor`
global (line 92). -/
structure sys_state where
  quadratures : ℤ → ℤ → quadrature_state
  timer_started : ℤ → Bool
  s_scale_factor : ℚ

/-- Pointwise update of the `s_quadratures` array at `[p][e]`. -/
def upd_quadratures (f : ℤ → ℤ → quadrature_state) (p e : ℤ)
    (q : quadrature_state) : ℤ → ℤ → quadrature_state :=
  fun pq eq => if pq = p ∧ eq = e then q else f pq eq

/-- `uni_mouse_quadrature_init` (lines 257-274): zeroes `s_quadratures` and
assigns the timers (`s_quadratures_init`), clears every `timer_started`
entry, and loads `s_scale_factor` from the store via
`uni_mouse_quadrature_get_scale_factor`.  (The task/ISR creation is
peripheral setup outside the model.) -/
def uni_mouse_quadrature_init (nvs : nvs_store) : sys_state :=
  { quadratures := s_quadratures_init,
    timer_started := fun _ => false,
    s_scale_factor := uni_mouse_quadrature_get_scale_factor nvs }

/-- `uni_mouse_quadrature_setup_port` (lines 276-285): out-of-range port
indices are rejected (logged, no state change); otherwise the two GPIO pairs
are bound to the port's horizontal and vertical encoders. -/
def uni_mouse_quadrature_setup_port (st : sys_state) (port_idx : ℤ)
    (h v : encoder_gpios) : sys_state :=
  if port_idx < 0 ∨ UNI_MOUSE_QUADRATURE_PORT_MAX ≤ port_idx then st
  else
    let qh := { st.quadratures port_idx UNI_MOUSE_QUADRATURE_ENCODER_H with gpios := h }
    let qv := { st.quadratures port_idx UNI_MOUSE_QUADRATURE_ENCODER_V with gpios := v }
    { st with quadratures := upd_quadratures (upd_quadratures st.quadratures port_idx UNI_MOUSE_QUADRATURE_ENCODER_H qh) port_idx UNI_MOUSE_QUADRATURE_ENCODER_V qv }

/-- `uni_mouse_quadrature_start` (lines 299-312): guards the port index,
returns early when `timer_started[port_idx]` is already set, otherwise calls
`timer_start` on both encoder timers and records the flag.  The performed
peripheral calls are returned as a list. -/
def uni_mouse_quadrature_start (st : sys_state) (port_idx : ℤ) :
    sys_state × List timer_op :=
  if port_idx < 0 ∨ UNI_MOUSE_QUADRATURE_PORT_MAX ≤ port_idx then (st, [])
  else if st.timer_started port_idx then (st, [])
  else
    ({ st with timer_started :=
        fun p => if p = port_idx then true else st.timer_started p },
     [.start (st.quadratures port_idx 0).timer_group
        (st.quadratures port_idx 0).timer_idx,
      .start (st.quadratures port_idx 1).timer_group
        (st.quadratures port_idx 1).timer_idx])

/-- `uni_mouse_quadrature_pause` (lines 314-327): guards the port index,
returns early when `timer_started[port_idx]` is already clear, otherwise
calls `timer_pause` on both encoder timers and clears the flag. -/
def uni_mouse_quadrature_pause (st : sys_state) (port_idx : ℤ) :
    sys_state × List timer_op :=
  if port_idx < 0 ∨ UNI_MOUSE_QUADRATURE_PORT_MAX ≤ port_idx then (st, [])
  else if st.timer_started port_idx = false then (st, [])
  else
    ({ st with timer_started :=
        fun p => if p = port_idx then false else st.timer_started p },
     [.pause (st.quadratures port_idx 0).timer_group
        (st.quadratures port_idx 0).timer_idx,
      .pause (st.quadratures port_idx 1).timer_group
        (st.quadratures port_idx 1).timer_idx])

/-- `uni_mouse_quadrature_update` (lines 330-339): guards the port index,
then feeds `dx` to the horizontal encoder and the `int32_t` negation `-dy`
(which wraps at `dy = -2^31`) to the vertical encoder, each through
`process_update`.  The two timer reloads are returned in call order. -/
def uni_mouse_quadrature_update (st : sys_state) (port_idx dx dy : ℤ) :
    sys_state × List (ℤ × ℤ × ℤ) :=
  if port_idx < 0 ∨ UNI_MOUSE_QUADRATURE_PORT_MAX ≤ port_idx then (st, [])
  else
    let rh := process_update
      (st.quadratures port_idx UNI_MOUSE_QUADRATURE_ENCODER_H) dx st.s_scale_factor
    let rv := process_update
      (st.quadratures port_idx UNI_MOUSE_QUADRATURE_ENCODER_V) (wrap32 (-dy))
      st.s_scale_factor
    ({ st with quadratures := upd_quadratures (upd_quadratures st.quadratures port_idx UNI_MOUSE_QUADRATURE_ENCODER_H rh.1) port_idx UNI_MOUSE_QUADRATURE_ENCODER_V rv.1 },
     [rh.2, rv.2])

/-- C7 (amended): for every valid port index and deltas `dx`, `dy` with
`dy ≠ -2^31` (the one value whose `int32_t` negation overflows), `update`
feeds `dx` unchanged into the horizontal axis's `process_update` and the
negation of `dy` into the vertical axis's, and emits exactly those two timer
reloads in order; the other axis of the pair is not touched beyond that. -/
theorem uni_mouse_quadrature_update_feeds (st : sys_state) (p dx dy : ℤ)
    (hp0 : 0 ≤ p) (hpm : p < UNI_MOUSE_QUADRATURE_PORT_MAX)
    (hdy1 : -2 ^ 31 < dy) (hdy2 : dy < 2 ^ 31) :
    (uni_mouse_quadrature_update st p dx dy).1.quadratures p
        UNI_MOUSE_QUADRATURE_ENCODER_H
      = (process_update (st.quadratures p UNI_MOUSE_QUADRATURE_ENCODER_H) dx
          st.s_scale_factor).1 ∧
    (uni_mouse_quadrature_update st p dx dy).1.quadratures p
        UNI_MOUSE_QUADRATURE_ENCODER_V
      = (process_update (st.quadratures p UNI_MOUSE_QUADRATURE_ENCODER_V) (-dy)
          st.s_scale_factor).1 ∧
    (uni_mouse_quadrature_update st p dx dy).2
      = [(process_update (st.quadratures p UNI_MOUSE_QUADRATURE_ENCODER_H) dx
            st.s_scale_factor).2,
         (process_update (st.quadratures p UNI_MOUSE_QUADRATURE_ENCODER_V) (-dy)
            st.s_scale_factor).2] := by
  have hwrap : wrap32 (-dy) = -dy := wrap32_eq_self (by omega) (by omega)
  have hguard : ¬(p < 0 ∨ UNI_MOUSE_QUADRATURE_PORT_MAX ≤ p) :=
    not_or.mpr ⟨not_lt.mpr hp0, not_le.mpr hpm⟩
  simp only [uni_mouse_quadrature_update, hwrap]
  rw [if_neg hguard]
  refine ⟨?_, ?_, rfl⟩
  · simp [upd_quadratures, UNI_MOUSE_QUADRATURE_ENCODER_H,
      UNI_MOUSE_QUADRATURE_ENCODER_V]
  · simp [upd_quadratures, UNI_MOUSE_QUADRATURE_ENCODER_V]

/-- Witness for C7: the spec's concrete scenario `update(port=0, dx=0,
dy=-10)` from the initialized state makes the vertical axis positive with 10
remaining steps and leaves the horizontal axis's count and phase unchanged. -/
theorem uni_mouse_quadrature_update_feeds_witness :
    (0 ≤ (0 : ℤ) ∧ (0 : ℤ) < UNI_MOUSE_QUADRATURE_PORT_MAX ∧
      -2 ^ 31 < (-10 : ℤ) ∧ (-10 : ℤ) < 2 ^ 31) ∧
    ((uni_mouse_quadrature_update
        (uni_mouse_quadrature_init ⟨true, true, true, true, none⟩) 0 0
        (-10)).1.quadratures 0 UNI_MOUSE_QUADRATURE_ENCODER_V).dir
      = .PHASE_DIRECTION_POS ∧
    ((uni_mouse_quadrature_update
        (uni_mouse_quadrature_init ⟨true, true, true, true, none⟩) 0 0
        (-10)).1.quadratures 0 UNI_MOUSE_QUADRATURE_ENCODER_V).value = 10 ∧
    ((uni_mouse_quadrature_update
        (uni_mouse_quadrature_init ⟨true, true, true, true, none⟩) 0 0
        (-10)).1.quadratures 0 UNI_MOUSE_QUADRATURE_ENCODER_H).value = 0 ∧
    ((uni_mouse_quadrature_update
        (uni_mouse_quadrature_init ⟨true, true, true, true, none⟩) 0 0
        (-10)).1.quadratures 0 UNI_MOUSE_QUADRATURE_ENCODER_H).phase = 0 := by
  have h := uni_mouse_quadrature_update_feeds
    (uni_mouse_quadrature_init ⟨true, true, true, true, none⟩) 0 0 (-10)
    (by norm_num) (by norm_num [UNI_MOUSE_QUADRATURE_PORT_MAX])
    (by norm_num) (by norm_num)
  refine ⟨⟨by norm_num, by norm_num [UNI_MOUSE_QUADRATURE_PORT_MAX],
    by norm_num, by norm_num⟩, ?_, ?_, ?_, ?_⟩
  · rw [h.2.1]; decide
  · rw [h.2.1]; decide
  · rw [h.1]; decide
  · rw [h.1]; decide

/-- Counterexample for C7 as stated: at `dy = -2^31` the vertical axis is not
fed the negation `2^31` of `dy` — the wrapped `int32_t` negation makes the
vertical count `-2^31`, while feeding the true negation would make it
`2^31`. -/
theorem uni_mouse_quadrature_update_feeds_counterexample :
    ((uni_mouse_quadrature_update
        (uni_mouse_quadrature_init ⟨true, true, true, true, none⟩) 0 0
        (-2 ^ 31)).1.quadratures 0 UNI_MOUSE_QUADRATURE_ENCODER_V).value
      = -2 ^ 31 ∧
    (process_update
        ((uni_mouse_quadrature_init ⟨true, true, true, true, none⟩).quadratures 0
          UNI_MOUSE_QUADRATURE_ENCODER_V)
        (-(-2 ^ 31))
        (uni_mouse_quadrature_init
          ⟨true, true, true, true, none⟩).s_scale_factor).1.value = 2 ^ 31 := by
  constructor <;> decide

/-- C8: for every out-of-range port index (negative or at least
`UNI_MOUSE_QUADRATURE_PORT_MAX`), each of `setup_port`, `start`, `pause` and
`update` leaves the whole module state unchanged, performs no peripheral
call, and returns normally. -/
theorem invalid_port_idx_noop (st : sys_state) (p dx dy : ℤ)
    (gh gv : encoder_gpios)
    (hp : p < 0 ∨ UNI_MOUSE_QUADRATURE_PORT_MAX ≤ p) :
    uni_mouse_quadrature_setup_port st p gh gv = st ∧
    uni_mouse_quadrature_start st p = (st, []) ∧
    uni_mouse_quadrature_pause st p = (st, []) ∧
    uni_mouse_quadrature_update st p dx dy = (st, []) := by
  refine ⟨?_, ?_, ?_, ?_⟩
  · rw [uni_mouse_quadrature_setup_port, if_pos hp]
  · rw [uni_mouse_quadrature_start, if_pos hp]
  · rw [uni_mouse_quadrature_pause, if_pos hp]
  · rw [uni_mouse_quadrature_update, if_pos hp]

/-- Witness for C8 at the out-of-range port index 2. -/
theorem invalid_port_idx_noop_witness :
    ((2 : ℤ) < 0 ∨ UNI_MOUSE_QUADRATURE_PORT_MAX ≤ 2) ∧
    uni_mouse_quadrature_setup_port
        (uni_mouse_quadrature_init ⟨true, true, true, true, none⟩) 2 ⟨1, 2⟩ ⟨3, 4⟩
      = uni_mouse_quadrature_init ⟨true, true, true, true, none⟩ ∧
    uni_mouse_quadrature_start
        (uni_mouse_quadrature_init ⟨true, true, true, true, none⟩) 2
      = (uni_mouse_quadrature_init ⟨true, true, true, true, none⟩, []) ∧
    uni_mouse_quadrature_pause
        (uni_mouse_quadrature_init ⟨true, true, true, true, none⟩) 2
      = (uni_mouse_quadrature_init ⟨true, true, true, true, none⟩, []) ∧
    uni_mouse_quadrature_update
        (uni_mouse_quadrature_init ⟨true, true, true, true, none⟩) 2 5 6
      = (uni_mouse_quadrature_init ⟨true, true, true, true, none⟩, []) := by
  have h := invalid_port_idx_noop
    (uni_mouse_quadrature_init ⟨true, true, true, true, none⟩) 2 5 6 ⟨1, 2⟩ ⟨3, 4⟩
    (by norm_num [UNI_MOUSE_QUADRATURE_PORT_MAX])
  exact ⟨by norm_num [UNI_MOUSE_QUADRATURE_PORT_MAX], h.1, h.2.1, h.2.2.1, h.2.2.2⟩

/-- C9: for every valid port index, `start` on an already-running port and
`pause` on an already-paused port are no-ops: the `timer_started` flag and
all axis state are unchanged and no peripheral `timer_start`/`timer_pause`
call is made. -/
theorem start_pause_idempotent (st : sys_state) (p : ℤ)
    (hp0 : 0 ≤ p) (hpm : p < UNI_MOUSE_QUADRATURE_PORT_MAX) :
    (st.timer_started p = true → uni_mouse_quadrature_start st p = (st, [])) ∧
    (st.timer_started p = false → uni_mouse_quadrature_pause st p = (st, [])) := by
  have hguard : ¬(p < 0 ∨ UNI_MOUSE_QUADRATURE_PORT_MAX ≤ p) :=
    not_or.mpr ⟨not_lt.mpr hp0, not_le.mpr hpm⟩
  constructor
  · intro hrun
    rw [uni_mouse_quadrature_start, if_neg hguard, if_pos hrun]
  · intro hstop
    rw [uni_mouse_quadrature_pause, if_neg hguard, if_pos hstop]

/-- Witness for C9: `pause` on the freshly initialized (not running) port 0,
and `start` on port 0 right after a first `start`, are both no-ops. -/
theorem start_pause_idempotent_witness :
    (0 ≤ (0 : ℤ) ∧ (0 : ℤ) < UNI_MOUSE_QUADRATURE_PORT_MAX) ∧
    uni_mouse_quadrature_pause
        (uni_mouse_quadrature_init ⟨true, true, true, true, none⟩) 0
      = (uni_mouse_quadrature_init ⟨true, true, true, true, none⟩, []) ∧
    uni_mouse_quadrature_start
        (uni_mouse_quadrature_start
          (uni_mouse_quadrature_init ⟨true, true, true, true, none⟩) 0).1 0
      = ((uni_mouse_quadrature_start
          (uni_mouse_quadrature_init ⟨true, true, true, true, none⟩) 0).1, []) := by
  refine ⟨⟨by norm_num, by norm_num [UNI_MOUSE_QUADRATURE_PORT_MAX]⟩, ?_, ?_⟩
  · exact (start_pause_idempotent
      (uni_mouse_quadrature_init ⟨true, true, true, true, none⟩) 0
      (by norm_num) (by norm_num [UNI_MOUSE_QUADRATURE_PORT_MAX])).2 rfl
  · exact (start_pause_idempotent
      (uni_mouse_quadrature_start
        (uni_mouse_quadrature_init ⟨true, true, true, true, none⟩) 0).1 0
      (by norm_num) (by norm_num [UNI_MOUSE_QUADRATURE_PORT_MAX])).1 (by decide)

/-- Axis states reachable from a freshly initialized axis through `update`
calls (restricted to deltas whose `int32_t` negation does not overflow) and
stepper firings. -/
inductive reachable_axis : quadrature_state → Prop where
  | init (p e : ℤ) : reachable_axis (s_quadratures_init p e)
  | update (q : quadrature_state) (d : ℤ) (s : ℚ) (hd : -2 ^ 31 < d) :
      reachable_axis q → reachable_axis (process_update q d s).1
  | fire (q : quadrature_state) :
      reachable_axis q → reachable_axis (process_quadrature q).1

/-- C10 (amended): along runs whose update deltas all exceed `-2^31`, the
remaining step count is non-negative in every reachable axis state (init
zeroes it, update sets it to `|delta| ≥ 0`, a firing decrements it only when
positive); and a stepper firing with the count at or below zero — including
a hypothetical negative count — leaves the axis state and the output pins
unchanged, so the count never decrements below zero. -/
theorem remaining_steps_nonneg (q : quadrature_state) (hq : reachable_axis q) :
    0 ≤ q.value ∧
    (∀ q' : quadrature_state, q'.value ≤ 0 → process_quadrature q' = (q', [])) := by
  refine ⟨?_, fun q' hv => by rw [process_quadrature, if_pos hv]⟩
  induction hq with
  | init p e => exact le_refl 0
  | update q d s hd hr ih =>
      rw [process_update]
      split
      · rw [abs_delta32_eq_abs hd]
        exact abs_nonneg d
      · exact ih
  | fire q hr ih =>
      rw [process_quadrature]
      split
      · exact ih
      · rename_i hpos
        simp only
        omega

/-- Witness for C10: the initialized axis has count 0, and a firing on an
axis with the hypothetically negative count -5 changes nothing and writes no
pin. -/
theorem remaining_steps_nonneg_witness :
    0 ≤ (s_quadratures_init 0 0).value ∧
    process_quadrature { s_quadratures_init 0 0 with value := -5 }
      = ({ s_quadratures_init 0 0 with value := -5 }, []) := by
  have h := remaining_steps_nonneg (s_quadratures_init 0 0)
    (reachable_axis.init 0 0)
  exact ⟨h.1, h.2 _ (by decide)⟩

/-- Counterexample for C10 as stated: with the full `int32_t` delta domain, a
single `update` with `delta = -2^31` from the initialized axis reaches a
state with a negative remaining count (`-2^31`), because the wrapped
negation is negative, so "update sets it to `|delta| ≥ 0`" fails there. -/
theorem remaining_steps_nonneg_counterexample :
    (process_update (s_quadratures_init 0 0) (-2 ^ 31) 1).1.value < 0 := by
  decide
